import Mathlib

/-!
Verification of the fasttravel realtime-collaboration backend.

The development shallowly embeds the parts of the repository that the
claims are about:

* the frame codec of `fasttravel-rt-proto/src/helpers.rs`
  (`process_realtime_message`, the tell/request/response constructors);
* the cospace registry and placement operations of
  `fasttravel_rt_server/src/cospace/cospace_manager.rs`;
* the cospace actor of `fasttravel_rt_server/src/cospace/cospace_actor.rs`;
* the client connection actor of
  `fasttravel_rt_server/src/client/client_connection_actor.rs`;
* the connection-service handshake of
  `fasttravel_rt_server/src/client/client_connection_service_actor.rs`;
* the HTTP handlers of
  `fasttravel_rt_server/src/websocket/websocket_server.rs`.

The prost-generated protobuf bindings (the `.proto` files and the code
generated from them) are not part of the source tree; the wire-envelope
data types and their encode/decode functions are therefore modelled from
the specification, with canonical, injective encodings.  Machine integers
(`u32` counters) are embedded as `Nat` with explicit `% 2^32` where the
source increments them.  External effects (worker-process spawning,
remote-address discovery, cluster asks, JWT validation) are passed in as
explicit outcome parameters.
-/

/-! ## Wire envelope and service messages (modelled from the spec) -/

/-- Taken from `fasttravel-rt-proto/src/lib.rs`: the pre-defined realtime
services; the audience or the issuer service of a realtime message. -/
inductive RealtimeService where
  | Undefined
  | Connection
  | Core
  | Presence
  | Activity
  | Model
deriving DecidableEq, Repr

/-- Modelled from the spec: the wire-envelope header
`Header { request_id: u32, response_id: u32 }` generated by prost from the
repository's proto definitions (not under the source tree).  `u32` fields
are embedded as `Nat`; prost scalar defaults are zero. -/
structure Header where
  request_id : Nat
  response_id : Nat
deriving DecidableEq, Repr

/-- Modelled from the spec: the connection-service handshake request
`realtime.connection.TicketHandshakeRequest { ticket }`. -/
structure TicketHandshakeRequest where
  ticket : String
deriving DecidableEq, Repr

/-- Modelled from the spec: the connection-service handshake response
`realtime.connection.TicketHandshakeResponse { success }`. -/
structure TicketHandshakeResponse where
  success : Bool
deriving DecidableEq, Repr

/-- Modelled from the spec: the payload union of the connection-service
message `realtime.connection.message.Payload`. -/
inductive ConnectionPayload where
  | HandshakeReq (req : TicketHandshakeRequest)
  | HandshakeRes (res : TicketHandshakeResponse)
deriving DecidableEq, Repr

/-- Modelled from the spec: the connection-service message
`realtime.connection.Message`, whose payload field is optional. -/
structure ConnectionMessage where
  payload : Option ConnectionPayload
deriving DecidableEq, Repr

/-- Modelled from the spec: the core-service message `realtime.core.Message`.
Its internals are opaque to the routing layer, so the content is abstract. -/
structure CoreMessage where
  content : Nat
deriving DecidableEq, Repr

/-- Modelled from the spec: the presence-service message
`realtime.presence.Message`; opaque to the routing layer. -/
structure PresenceMessage where
  content : Nat
deriving DecidableEq, Repr

/-- Modelled from the spec: the activity-service message
`realtime.activity.Message`; opaque to the routing layer. -/
structure ActivityMessage where
  content : Nat
deriving DecidableEq, Repr

/-- Modelled from the spec: the model-service message
`realtime.model.Message`; opaque to the routing layer. -/
structure ModelMessage where
  content : Nat
deriving DecidableEq, Repr

/-- Modelled from the spec: the envelope body
`realtime_message::Body`, a tagged union over the services. -/
inductive Body where
  | ConnectionMsg (m : ConnectionMessage)
  | CoreMsg (m : CoreMessage)
  | PresenceMsg (m : PresenceMessage)
  | ActivityMsg (m : ActivityMessage)
  | ModelMsg (m : ModelMessage)
deriving DecidableEq, Repr

/-- Modelled from the spec: the wire envelope `RealtimeMessage` with an
optional header and an optional body (absence of either is malformed). -/
structure RealtimeMessage where
  header : Option Header
  body : Option Body
deriving DecidableEq, Repr

/-- Modelled from the spec: byte strings exchanged on the wire.  Encoded
messages are represented canonically and injectively by the constructor of
the message type that produced them; `raw` stands for bytes that decode as
no message at all. -/
inductive ProtoBytes where
  | rtEnc (m : RealtimeMessage)
  | connEnc (m : ConnectionMessage)
  | coreEnc (m : CoreMessage)
  | presenceEnc (m : PresenceMessage)
  | activityEnc (m : ActivityMessage)
  | modelEnc (m : ModelMessage)
  | raw (bytes : List Nat)
deriving DecidableEq, Repr

/-- Modelled from the spec: prost `RealtimeMessage::decode`. -/
def RealtimeMessage.decode : ProtoBytes → Except String RealtimeMessage
  | .rtEnc m => .ok m
  | _ => .error "decode error"

/-- Modelled from the spec: prost `RealtimeMessage::encode_to_vec`. -/
def RealtimeMessage.encode_to_vec (m : RealtimeMessage) : ProtoBytes :=
  .rtEnc m

/-- Modelled from the spec: prost `realtime::connection::Message::decode`. -/
def ConnectionMessage.decode : ProtoBytes → Except String ConnectionMessage
  | .connEnc m => .ok m
  | _ => .error "decode error"

/-- Modelled from the spec: prost `realtime::connection::Message::encode_to_vec`. -/
def ConnectionMessage.encode_to_vec (m : ConnectionMessage) : ProtoBytes :=
  .connEnc m

/-- Modelled from the spec: prost `realtime::core::Message::decode`. -/
def CoreMessage.decode : ProtoBytes → Except String CoreMessage
  | .coreEnc m => .ok m
  | _ => .error "decode error"

/-! ## Frame codec (from `fasttravel-rt-proto/src/helpers.rs`) -/

/-- Extracted payload of a TELL message (`ProtoPayloadTell`). -/
structure ProtoPayloadTell where
  service : RealtimeService
  bytes : ProtoBytes
deriving DecidableEq, Repr

/-- Extracted payload of a REQUEST message (`ProtoPayloadRequest`). -/
structure ProtoPayloadRequest where
  request_id : Nat
  service : RealtimeService
  bytes : ProtoBytes
deriving DecidableEq, Repr

/-- Extracted payload of a RESPONSE message (`ProtoPayloadResponse`). -/
structure ProtoPayloadResponse where
  response_id : Nat
  service : RealtimeService
  bytes : ProtoBytes
deriving DecidableEq, Repr

/-- Message types based on the `RealtimeMessage.header` request_id and
response_id fields (`ProtoMessage` in `helpers.rs`). -/
inductive ProtoMessage where
  | Undefined
  | Tell (p : ProtoPayloadTell)
  | Request (p : ProtoPayloadRequest)
  | Response (p : ProtoPayloadResponse)
deriving DecidableEq, Repr

/-- Embeds `extract_service_payload_from_rt_message` of `helpers.rs`: the
body is matched on its service tag and the inner service message is
re-encoded to bytes. -/
def extract_service_payload_from_rt_message (body : Body) :
    Option (RealtimeService × ProtoBytes) :=
  let tagged : RealtimeService × Option ProtoBytes :=
    match body with
    | .ConnectionMsg m => (.Connection, some (ProtoBytes.connEnc m))
    | .CoreMsg m => (.Core, some (ProtoBytes.coreEnc m))
    | .PresenceMsg m => (.Presence, some (ProtoBytes.presenceEnc m))
    | .ActivityMsg m => (.Activity, some (ProtoBytes.activityEnc m))
    | .ModelMsg m => (.Model, some (ProtoBytes.modelEnc m))
  if tagged.1 = RealtimeService.Undefined then none
  else tagged.2.map (fun b => (tagged.1, b))

/-- Embeds `process_header_and_message` of `helpers.rs`: reject an absent
header or body, reject both header ids non-zero, then classify by the ids
and extract the service payload. -/
def process_header_and_message (rt_msg : RealtimeMessage) : ProtoMessage :=
  match rt_msg.header, rt_msg.body with
  | none, _ => .Undefined
  | some _, none => .Undefined
  | some header, some body =>
    if header.request_id ≠ 0 ∧ header.response_id ≠ 0 then .Undefined
    else
      match extract_service_payload_from_rt_message body with
      | some payload =>
        if header.request_id ≠ 0 then
          .Request { request_id := header.request_id,
                     service := payload.1, bytes := payload.2 }
        else if header.response_id ≠ 0 then
          .Response { response_id := header.response_id,
                      service := payload.1, bytes := payload.2 }
        else
          .Tell { service := payload.1, bytes := payload.2 }
      | none => .Undefined

/-- Embeds `process_realtime_message` of `helpers.rs`: decode the bytes and
process header and body; a decode error yields `Undefined`. -/
def process_realtime_message (msg : ProtoBytes) : ProtoMessage :=
  match RealtimeMessage.decode msg with
  | .ok rt_msg => process_header_and_message rt_msg
  | .error _ => .Undefined

/-- Embeds `create_rt_message_from_service_payload` of `helpers.rs`: only
the Connection and Core services are supported (the source logs
`service_not_supported_yet` for every other service); the payload is
decoded as the service message and placed in the body.  The header of the
built message is left at its default, which is absent. -/
def create_rt_message_from_service_payload (service : RealtimeService)
    (payload : ProtoBytes) : Option RealtimeMessage :=
  let body : Option Body :=
    match service with
    | .Connection =>
      match ConnectionMessage.decode payload with
      | .ok m => some (.ConnectionMsg m)
      | .error _ => none
    | .Core =>
      match CoreMessage.decode payload with
      | .ok m => some (.CoreMsg m)
      | .error _ => none
    | _ => none
  body.map (fun b => { header := none, body := some b })

/-- Embeds `create_tell_message_from_service_payload` of `helpers.rs`. -/
def create_tell_message_from_service_payload (service : RealtimeService)
    (payload : ProtoBytes) : Option ProtoBytes :=
  (create_rt_message_from_service_payload service payload).map
    (fun rt_msg => rt_msg.encode_to_vec)

/-- Embeds `create_response_message_from_service_payload` of `helpers.rs`:
the header is set to the default header with its response_id replaced. -/
def create_response_message_from_service_payload (response_id : Nat)
    (service : RealtimeService) (payload : ProtoBytes) : Option ProtoBytes :=
  (create_rt_message_from_service_payload service payload).map
    (fun rt_msg =>
      ({ rt_msg with
         header := some { request_id := 0, response_id := response_id }
       }).encode_to_vec)

/-- Embeds `create_request_message_from_service_payload` of `helpers.rs`:
the header is set to the default header with its request_id replaced. -/
def create_request_message_from_service_payload (request_id : Nat)
    (service : RealtimeService) (payload : ProtoBytes) : Option ProtoBytes :=
  (create_rt_message_from_service_payload service payload).map
    (fun rt_msg =>
      ({ rt_msg with
         header := some { request_id := request_id, response_id := 0 }
       }).encode_to_vec)

/-- Is the payload a (canonical) encoding of the given service's service
message?  This decides the claims' side condition "p is a valid encoding of
s's service message". -/
def isValidServiceEncoding (service : RealtimeService) (payload : ProtoBytes) :
    Bool :=
  match service, payload with
  | .Connection, .connEnc _ => true
  | .Core, .coreEnc _ => true
  | .Presence, .presenceEnc _ => true
  | .Activity, .activityEnc _ => true
  | .Model, .modelEnc _ => true
  | _, _ => false

/-! ## Identifiers (from `fasttravel_rt_services/src/ids.rs`) -/

/-- Collaborative space id (`CospaceId`); the 128-bit v4 uuid is embedded
as a `Nat`. -/
structure CospaceId where
  uuid : Nat
deriving DecidableEq, Repr

/-- Client id of a client connected to a collaborative space (`ClientId`):
a `u32` sequence number unique inside the cospace, plus the cospace id. -/
structure ClientId where
  id : Nat
  cospace : CospaceId
deriving DecidableEq, Repr

/-- The model-root hosted by a collaboration space (`ModelRoot`).  The
source field `namespace` is a Lean keyword and is embedded as
`name_space`. -/
structure ModelRoot where
  name_space : String
  workspace : String
deriving DecidableEq, Repr

/-! ## Hosted-cospace registry (from `cospace/cospace_manager.rs`) -/

/-- Resource allocation mode of a hosted cospace (`ResourceAllocation`). -/
inductive ResourceAllocation where
  | Dedicated
  | Shared
deriving DecidableEq, Repr

/-- Details of a scheduled collaboration-space creation request
(`CospaceCreationRequest`); the wall-clock timestamp of the source is not
modelled. -/
structure CospaceCreationRequest where
  id : CospaceId
deriving DecidableEq, Repr

/-- A hosted collaboration space (`HostedCospace`): its allocation mode and
the cospace actor's address (embedded as an abstract `Nat`). -/
structure HostedCospace where
  resource_alloc : ResourceAllocation
  addr_actor : Nat
deriving DecidableEq, Repr

/-- A concurrent map keyed by uuid, embedded as its lookup function. -/
def UuidMap (α : Type) : Type := Nat → Option α

/-- Map insertion (DashMap `insert`: replaces any existing entry). -/
def UuidMap.insert {α : Type} (m : UuidMap α) (k : Nat) (v : α) : UuidMap α :=
  fun x => if x = k then some v else m x

/-- Map removal (DashMap `remove`). -/
def UuidMap.erase {α : Type} (m : UuidMap α) (k : Nat) : UuidMap α :=
  fun x => if x = k then none else m x

/-- The hosted-cospaces registry (`HostedCospacesInner`): the `scheduled`,
`failed` and `cospaces` maps keyed by cospace uuid. -/
structure HostedCospaces where
  scheduled : UuidMap CospaceCreationRequest
  failed : UuidMap CospaceCreationRequest
  cospaces : UuidMap HostedCospace

/-- Embeds `HostedCospaces::new`: all three maps empty. -/
def HostedCospaces.new : HostedCospaces :=
  { scheduled := fun _ => none, failed := fun _ => none,
    cospaces := fun _ => none }

/-- Embeds `HostedCospaces::is_scheduled`. -/
def HostedCospaces.is_scheduled (r : HostedCospaces) (uuid : Nat) : Bool :=
  (r.scheduled uuid).isSome

/-- Embeds `HostedCospaces::is_failed`. -/
def HostedCospaces.is_failed (r : HostedCospaces) (uuid : Nat) : Bool :=
  (r.failed uuid).isSome

/-- Embeds `HostedCospaces::is_hosted`. -/
def HostedCospaces.is_hosted (r : HostedCospaces) (uuid : Nat) : Bool :=
  (r.cospaces uuid).isSome

/-- Embeds `HostedCospaces::get_cospace_addr`. -/
def HostedCospaces.get_cospace_addr (r : HostedCospaces) (uuid : Nat) :
    Option Nat :=
  (r.cospaces uuid).map (fun cospace => cospace.addr_actor)

/-- Embeds `HostedCospaces::scheduled` (the method; named `mark_scheduled`
here because the struct field of the same name is the map): insert the id
into the scheduled map. -/
def HostedCospaces.mark_scheduled (r : HostedCospaces) (cospace_id : CospaceId) :
    HostedCospaces :=
  { r with
    scheduled := r.scheduled.insert cospace_id.uuid { id := cospace_id } }

/-- Embeds `HostedCospaces::failed` (the method; named `mark_failed` here
because the struct field of the same name is the map): if the id is in the
scheduled map, remove it from there and insert the removed entry into the
failed map; otherwise do nothing. -/
def HostedCospaces.mark_failed (r : HostedCospaces) (cospace_id : CospaceId) :
    HostedCospaces :=
  match r.scheduled cospace_id.uuid with
  | some req =>
    { r with
      scheduled := r.scheduled.erase cospace_id.uuid,
      failed := r.failed.insert cospace_id.uuid req }
  | none => r

/-- Embeds `HostedCospaces::insert_cospace`: insert into the cospaces map
and remove from the scheduled map. -/
def HostedCospaces.insert_cospace (r : HostedCospaces) (cospace_id : CospaceId)
    (cospace : HostedCospace) : HostedCospaces :=
  { r with
    cospaces := r.cospaces.insert cospace_id.uuid cospace,
    scheduled := r.scheduled.erase cospace_id.uuid }

/-- Embeds `HostedCospaces::_remove_cospace`: remove from the cospaces
map. -/
def HostedCospaces.remove_cospace (r : HostedCospaces) (cospace_id : CospaceId) :
    HostedCospaces :=
  { r with cospaces := r.cospaces.erase cospace_id.uuid }

/-- One completed registry operation, for reasoning about operation
sequences on `HostedCospaces`. -/
inductive RegistryOp where
  | sched (cospace_id : CospaceId)
  | fail (cospace_id : CospaceId)
  | insert (cospace_id : CospaceId) (cospace : HostedCospace)
  | remove (cospace_id : CospaceId)

/-- Apply one registry operation. -/
def applyRegistryOp (r : HostedCospaces) : RegistryOp → HostedCospaces
  | .sched cospace_id => r.mark_scheduled cospace_id
  | .fail cospace_id => r.mark_failed cospace_id
  | .insert cospace_id cospace => r.insert_cospace cospace_id cospace
  | .remove cospace_id => r.remove_cospace cospace_id

/-- Apply a sequence of registry operations, first element first. -/
def applyRegistryOps (r : HostedCospaces) : List RegistryOp → HostedCospaces
  | [] => r
  | op :: ops => applyRegistryOps (applyRegistryOp r op) ops

/-- In how many of the three maps is the uuid a key? -/
def registryMembershipCount (r : HostedCospaces) (uuid : Nat) : Nat :=
  (if r.is_scheduled uuid then 1 else 0)
    + (if r.is_failed uuid then 1 else 0)
    + (if r.is_hosted uuid then 1 else 0)

/-- The call discipline the cospace manager observes on the registry: a
`scheduled` insertion always uses a freshly generated v4 uuid (so one that
is a key of no map), and each spawn task performs at most one of
`failed`/`insert_cospace` for its uuid, so `insert_cospace` never targets a
uuid in the failed map. -/
def registryOpAllowed (r : HostedCospaces) : RegistryOp → Bool
  | .sched cospace_id =>
    !(r.is_scheduled cospace_id.uuid || r.is_failed cospace_id.uuid
        || r.is_hosted cospace_id.uuid)
  | .insert cospace_id _ => !(r.is_failed cospace_id.uuid)
  | _ => true

/-- Does the whole operation sequence observe the manager's call
discipline, starting from registry `r`? -/
def registryOpsAllowed (r : HostedCospaces) : List RegistryOp → Bool
  | [] => true
  | op :: ops =>
    registryOpAllowed r op && registryOpsAllowed (applyRegistryOp r op) ops

/-! ## Cospace placement (from `cospace/cospace_manager.rs`) -/

/-- Outcome of the `CreateCospaceActor` ask to a node manager
(`node_mgr_addr.ask_addr(msg)`): `Ok(Some(addr))`, `Ok(None)`, or a
transport error. -/
inductive CreateCospaceAskResult where
  | ok (addr_actor : Option Nat)
  | err (msg : String)
deriving DecidableEq, Repr

/-- Embeds `CospaceManager::spawn_cospace_in_node`: on `Ok(Some(addr))`
the cospace is registered as hosted with the given allocation; on
`Ok(None)` and on an ask error the source only logs
(`error_in_ask_create_cospace`) and leaves the registry unchanged. -/
def spawn_cospace_in_node (cospace_id : CospaceId)
    (alloc : ResourceAllocation) (ask_result : CreateCospaceAskResult)
    (hosted_cospaces : HostedCospaces) : HostedCospaces :=
  match ask_result with
  | .ok (some addr_actor) =>
    hosted_cospaces.insert_cospace cospace_id
      { resource_alloc := alloc, addr_actor := addr_actor }
  | .ok none => hosted_cospaces
  | .err _ => hosted_cospaces

/-- Environment outcomes of `spawn_cospace_in_dedicated_node`: the worker
process spawn (`spawn_worker_node`), the node-manager remote address lookup
(`get_remote_addr`), and the `CreateCospaceActor` ask. -/
structure DedicatedNodeEnv where
  spawn_worker_node : Option Nat
  get_remote_addr : Option Nat
  create_actor_ask : CreateCospaceAskResult
deriving DecidableEq, Repr

/-- Embeds `CospaceManager::spawn_cospace_in_dedicated_node`: mark the
cospace scheduled, then spawn a dedicated worker (failure moves the
cospace to failed), look up the worker's node-manager address (failure
shuts the worker down and moves the cospace to failed), and finally ask
for actor creation via `spawn_cospace_in_node`. -/
def spawn_cospace_in_dedicated_node (env : DedicatedNodeEnv)
    (cospace_id : CospaceId) (hosted_cospaces : HostedCospaces) :
    HostedCospaces :=
  let scheduled_state := hosted_cospaces.mark_scheduled cospace_id
  match env.spawn_worker_node with
  | none => scheduled_state.mark_failed cospace_id
  | some _node_id =>
    match env.get_remote_addr with
    | none => scheduled_state.mark_failed cospace_id
    | some _node_mgr_addr =>
      spawn_cospace_in_node cospace_id .Dedicated env.create_actor_ask
        scheduled_state

/-- Embeds `CospaceManager::spawn_cospace_in_main_node`: mark scheduled,
then ask the main node manager (resolved at startup) for actor creation. -/
def spawn_cospace_in_main_node (create_actor_ask : CreateCospaceAskResult)
    (cospace_id : CospaceId) (hosted_cospaces : HostedCospaces) :
    HostedCospaces :=
  spawn_cospace_in_node cospace_id .Shared create_actor_ask
    (hosted_cospaces.mark_scheduled cospace_id)

/-- Embeds `CospaceManager::spawn_cospace_in_shared_node`: mark scheduled,
then ask the shared node manager (resolved at startup) for actor
creation. -/
def spawn_cospace_in_shared_node (create_actor_ask : CreateCospaceAskResult)
    (cospace_id : CospaceId) (hosted_cospaces : HostedCospaces) :
    HostedCospaces :=
  spawn_cospace_in_node cospace_id .Shared create_actor_ask
    (hosted_cospaces.mark_scheduled cospace_id)

/-! ## Cospace actor (from `cospace/cospace_actor.rs`) -/

/-- State of a `CospaceActor` relevant to client-id generation: the cospace
id, the hosted model-root, and the `u32` client-id counter. -/
structure CospaceActorState where
  cospace : CospaceId
  model_root : ModelRoot
  client_id_counter : Nat
deriving DecidableEq, Repr

/-- Embeds `CospaceActor::new`: the client-id counter starts at 1. -/
def CospaceActor.new (cospace : CospaceId) (model_root : ModelRoot) :
    CospaceActorState :=
  { cospace := cospace, model_root := model_root, client_id_counter := 1 }

/-- Embeds the `GenerateClientIdMessage` handler of `CospaceActor`: build a
`ClientId` from the current counter and this actor's cospace id, then
increment the counter (`u32` arithmetic). -/
def handle_generate_client_id (s : CospaceActorState) :
    CospaceActorState × ClientId :=
  let id : ClientId := { id := s.client_id_counter, cospace := s.cospace }
  ({ s with client_id_counter := (s.client_id_counter + 1) % 2 ^ 32 }, id)

/-- The actor state after `k` handled `GenerateClientId` requests. -/
def cospaceActorStateAfter (s : CospaceActorState) : Nat → CospaceActorState
  | 0 => s
  | k + 1 => (handle_generate_client_id (cospaceActorStateAfter s k)).1

/-- The client id returned by the i-th `GenerateClientId` request
(counting from 1). -/
def nth_generated_client_id (s : CospaceActorState) (i : Nat) : ClientId :=
  (handle_generate_client_id (cospaceActorStateAfter s (i - 1))).2

/-! ## Client connection actor (from `client/client_connection_actor.rs`) -/

/-- Message payloads carried by `ClientMessage`/`ServiceMessage`
(`MessagePayload` in the server crate). -/
inductive MessagePayload where
  | Text (s : String)
  | Binary (b : ProtoBytes)
deriving DecidableEq, Repr

/-- State of a `ClientConnectionActor` relevant to server-initiated
requests: the `u32` request-id counter and the keys of the outstanding
response promises. -/
structure ClientConnectionActorState where
  request_id_counter : Nat
  service_promises : List Nat
deriving DecidableEq, Repr

/-- Embeds `ClientConnectionActor::new`: the request-id counter starts
at 0 and the promise table is empty. -/
def ClientConnectionActor.new : ClientConnectionActorState :=
  { request_id_counter := 0, service_promises := [] }

/-- Embeds `recv_req_from_service` of `ClientConnectionActor` for a binary
service Ask: the allocated request id is the current counter value, the
counter is then incremented (`u32` arithmetic), the Request frame is built
by `create_request_message_from_service_payload`, and on success the frame
is enqueued to the socket (returned here) and a response promise is
inserted under the allocated id. -/
def recv_req_from_service (s : ClientConnectionActorState)
    (sender : RealtimeService) (proto_bytes : ProtoBytes) :
    ClientConnectionActorState × Option ProtoBytes :=
  let request_id := s.request_id_counter
  let s1 : ClientConnectionActorState :=
    { s with request_id_counter := (s.request_id_counter + 1) % 2 ^ 32 }
  match create_request_message_from_service_payload request_id sender
      proto_bytes with
  | some frame =>
    ({ s1 with service_promises := request_id :: s1.service_promises },
      some frame)
  | none => (s1, none)

/-! ## JWT validation configurations (from `authorization.rs`) -/

/-- JWT signature algorithms in use (`jsonwebtoken::Algorithm`). -/
inductive JwtAlgorithm where
  | ES256
deriving DecidableEq, Repr

/-- A `jsonwebtoken::Validation` configuration: the algorithm plus the
required `sub` and `aud` claims (expiry is always checked). -/
structure JwtValidation where
  algorithm : JwtAlgorithm
  sub : Option String
  aud : Option (List String)
deriving DecidableEq, Repr

/-- Embeds `TicketClaimsMessage::validation`: ES256, sub `sdk`, aud
`message`. -/
def TicketClaimsMessage.validation : JwtValidation :=
  { algorithm := .ES256, sub := some "sdk", aud := some ["message"] }

/-- Embeds `TicketClaimsQuery::validation`: ES256, sub `sdk`, aud
`query`. -/
def TicketClaimsQuery.validation : JwtValidation :=
  { algorithm := .ES256, sub := some "sdk", aud := some ["query"] }

/-- The outcome of `jsonwebtoken::decode` for a given validation
configuration and token, against the preloaded session-request public key.
The claims quantify over this function: it abstracts the external
`jsonwebtoken` crate (out of scope per the spec), returning `true` exactly
when the token is a JWT signed with the key, not expired, and carrying the
configured `sub`/`aud` claims and algorithm. -/
def JwtDecodeOutcome : Type := JwtValidation → String → Bool

/-! ## Connection-service handshake
(from `client/client_connection_service_actor.rs` and
`helpers/connection.rs`) -/

/-- Embeds `create_ticket_handshake_response` of `helpers/connection.rs`:
encode a connection message holding `HandshakeRes { success }`. -/
def create_ticket_handshake_response (success : Bool) : ProtoBytes :=
  ConnectionMessage.encode_to_vec
    { payload := some (.HandshakeRes { success := success }) }

/-- Embeds `decode_connection_message_and_extract_payload` of
`helpers/connection.rs`: decode the bytes as a connection message and
return its optional payload. -/
def decode_connection_message_and_extract_payload (bytes : ProtoBytes) :
    Option ConnectionPayload :=
  match ConnectionMessage.decode bytes with
  | .ok msg => msg.payload
  | .error _ => none

/-- Embeds `ClientConnectionServiceActor::handle_handshake_request`:
validate the ticket with `TicketClaimsMessage::validation` against the
preloaded session-request decoding key; `success` is true exactly when
`jsonwebtoken::decode` succeeds; always answer with an encoded
`HandshakeRes`. -/
def handle_handshake_request (jwt_decode : JwtDecodeOutcome)
    (req : TicketHandshakeRequest) : Option ProtoBytes :=
  let success := jwt_decode TicketClaimsMessage.validation req.ticket
  some (create_ticket_handshake_response success)

/-- Embeds the `ClientMessage` handler of `ClientConnectionServiceActor`:
a binary payload is decoded as a connection message; a `HandshakeReq`
payload is answered by `handle_handshake_request`; every other payload is
logged and answered with `None`. -/
def conn_service_handle_client_message (jwt_decode : JwtDecodeOutcome)
    (payload : MessagePayload) : Option ProtoBytes :=
  match payload with
  | .Binary bytes =>
    match decode_connection_message_and_extract_payload bytes with
    | some (.HandshakeReq req) => handle_handshake_request jwt_decode req
    | some (.HandshakeRes _) => none
    | none => none
  | .Text _ => none

/-! ## HTTP handlers (from `websocket/websocket_server.rs` and
`authorization.rs`) -/

/-- Realtime server authentication errors (`AuthError`). -/
inductive AuthError where
  | WrongCredentials
  | MissingCredentials
  | TicketCreation
  | TokenCreation
  | InvalidToken
deriving DecidableEq, Repr

/-- Embeds `AuthError::into_response`: the HTTP status code and error
message of each authentication error. -/
def AuthError.into_response : AuthError → Nat × String
  | .WrongCredentials => (401, "Wrong credentials")
  | .MissingCredentials => (400, "Missing credentials")
  | .TicketCreation => (500, "Ticket creation error")
  | .TokenCreation => (500, "Token creation error")
  | .InvalidToken => (400, "Invalid token")

/-- Embeds `realtime_status`: report `HOSTED`, else `SCHEDULED`, else
`FAILED`, else `NOT_FOUND`, in that order of checks. -/
def realtime_status (hosted_cospaces : HostedCospaces) (cospace_uuid : Nat) :
    String :=
  if hosted_cospaces.is_hosted cospace_uuid then "HOSTED"
  else if hosted_cospaces.is_scheduled cospace_uuid then "SCHEDULED"
  else if hosted_cospaces.is_failed cospace_uuid then "FAILED"
  else "NOT_FOUND"

/-- Body of a `POST /realtime/host/` request (`HostSessionRequest`). -/
structure HostSessionRequest where
  model_workspace : String
  model_namespace : String
deriving DecidableEq, Repr

/-- Embeds the `ModelRoot` construction in `realtime_host` (lines 100-103
of `websocket_server.rs`): the `namespace` field is filled from the
request's `model_workspace` field and the `workspace` field from the
request's `model_namespace` field. -/
def realtime_host_model_root (session_req : HostSessionRequest) : ModelRoot :=
  { name_space := session_req.model_workspace,
    workspace := session_req.model_namespace }

/-- Embeds `resolve_cospace_host_node_from_session_request`: every session
request currently resolves to dedicated placement. -/
inductive CospaceHostNode where
  | Main
  | Shared
  | Dedicated
deriving DecidableEq, Repr

/-- Embeds `resolve_cospace_host_node_from_session_request`. -/
def resolve_cospace_host_node_from_session_request
    (_session_req : HostSessionRequest) : CospaceHostNode :=
  .Dedicated

/-- Embeds `check_connect_authorization`: the `ticket` query parameter, if
present, is validated with `TicketClaimsQuery::validation` against the
preloaded session-request decoding key; anything else is unauthorized. -/
def check_connect_authorization (jwt_decode : JwtDecodeOutcome)
    (params : Option (List (String × String))) : Bool :=
  match params with
  | some ps =>
    match ps.lookup "ticket" with
    | some query_ticket =>
      jwt_decode TicketClaimsQuery.validation query_ticket
    | none => false
  | none => false

/-- Result of `realtime_connect`: either the WebSocket upgrade is offered
for the hosted cospace actor's address, or an authentication error is
returned. -/
inductive ConnectResponse where
  | upgrade (cospace_addr : Nat)
  | authError (e : AuthError)
deriving DecidableEq, Repr

/-- Embeds `realtime_connect`: an invalid or absent query ticket yields
`InvalidToken`; with a valid ticket, the upgrade is offered exactly when
the cospace uuid is a key of the hosted map; otherwise the handler returns
`WrongCredentials`. -/
def realtime_connect (jwt_decode : JwtDecodeOutcome) (uuid : Nat)
    (params : Option (List (String × String)))
    (hosted_cospaces : HostedCospaces) : ConnectResponse :=
  if check_connect_authorization jwt_decode params = false then
    .authError .InvalidToken
  else
    match hosted_cospaces.get_cospace_addr uuid with
    | some cospace_addr => .upgrade cospace_addr
    | none => .authError .WrongCredentials

/-! ## Claim-side notions -/

/-- Classification of a frame by its header ids only (for comparing the
codec against the spec's classification rule). -/
inductive MessageClass where
  | undefined
  | tell
  | request (id : Nat)
  | response (id : Nat)
deriving DecidableEq, Repr

/-- Follows the spec's words (claim C5): a decoded envelope is classified
exactly by the header ids — header or body absent, or both ids non-zero,
is `undefined`; otherwise `request request_id` when `request_id ≠ 0`,
`response response_id` when `response_id ≠ 0`, and `tell` when both are
zero. -/
def classify_by_header_spec (rt_msg : RealtimeMessage) : MessageClass :=
  match rt_msg.header, rt_msg.body with
  | none, _ => .undefined
  | some _, none => .undefined
  | some header, some _ =>
    if header.request_id ≠ 0 ∧ header.response_id ≠ 0 then .undefined
    else if header.request_id ≠ 0 then .request header.request_id
    else if header.response_id ≠ 0 then .response header.response_id
    else .tell

/-- The classification a `ProtoMessage` carries. -/
def ProtoMessage.classification : ProtoMessage → MessageClass
  | .Undefined => .undefined
  | .Tell _ => .tell
  | .Request p => .request p.request_id
  | .Response p => .response p.response_id

/-- A sample connection-service message (used as concrete input in closed
theorems). -/
def sampleConnectionMessage : ConnectionMessage :=
  { payload := some (.HandshakeReq { ticket := "ticket" }) }

/-- The encoding of `sampleConnectionMessage`: a valid Connection-service
payload. -/
def sampleConnectionBytes : ProtoBytes :=
  ConnectionMessage.encode_to_vec sampleConnectionMessage

/-- A valid Presence-service payload (the encoding of a presence
message). -/
def samplePresenceBytes : ProtoBytes :=
  .presenceEnc { content := 0 }

/-- A sample hosted-cospace record (used as concrete input in closed
theorems). -/
def c6SampleHosted : HostedCospace :=
  { resource_alloc := .Shared, addr_actor := 7 }

/-! ## Helper lemmas -/

theorem UuidMap.insert_self {α : Type} (m : UuidMap α) (k : Nat) (v : α) :
    m.insert k v k = some v := by
  simp [UuidMap.insert]

theorem UuidMap.insert_ne {α : Type} (m : UuidMap α) (k : Nat) (v : α)
    (x : Nat) (h : x ≠ k) : m.insert k v x = m x := by
  simp [UuidMap.insert, h]

theorem UuidMap.erase_self {α : Type} (m : UuidMap α) (k : Nat) :
    m.erase k k = none := by
  simp [UuidMap.erase]

theorem UuidMap.erase_ne {α : Type} (m : UuidMap α) (k : Nat) (x : Nat)
    (h : x ≠ k) : m.erase k x = m x := by
  simp [UuidMap.erase, h]

/-! ## Claim C2 -/

/-- C2: the tell constructor does NOT round-trip through the decoder.
`create_tell_message_from_service_payload` leaves the envelope header
absent, and `process_header_and_message` classifies a frame with an absent
header as `Undefined`; so for the Connection service and a valid payload
the constructor succeeds but the decoder yields `Undefined`, not
`Tell(s, p)`. -/
theorem C2_make_tell_frame_is_classified_undefined :
    create_tell_message_from_service_payload .Connection sampleConnectionBytes
      = some (ProtoBytes.rtEnc
          { header := none,
            body := some (.ConnectionMsg sampleConnectionMessage) })
    ∧ (create_tell_message_from_service_payload .Connection
          sampleConnectionBytes).map process_realtime_message
        = some .Undefined := by
  exact ⟨rfl, rfl⟩

/-! ## Claim C3 -/

/-- C3: the first server-initiated Ask on a fresh `ClientConnectionActor`
allocates request id 0 (the counter starts at 0 and is read before the
increment), and the emitted Request frame is therefore classified by the
codec as a `Tell`, not as a `Request` — zero means "not a request". -/
theorem C3_first_server_request_frame_classified_as_tell :
    ClientConnectionActor.new.request_id_counter = 0
    ∧ (recv_req_from_service ClientConnectionActor.new .Connection
          sampleConnectionBytes).2
        = some (ProtoBytes.rtEnc
            { header := some { request_id := 0, response_id := 0 },
              body := some (.ConnectionMsg sampleConnectionMessage) })
    ∧ ((recv_req_from_service ClientConnectionActor.new .Connection
          sampleConnectionBytes).2).map process_realtime_message
        = some (.Tell { service := .Connection,
                        bytes := sampleConnectionBytes }) := by
  exact ⟨rfl, rfl, rfl⟩

/-! ## Claim C4 -/

/-- C4 counterexample: for the Presence service the claim fails — the
payload is a valid encoding of a presence message, yet both constructors
return `none` (the source logs `service_not_supported_yet` for every
service other than Connection and Core), so no round-trip takes place. -/
theorem C4_counterexample_presence_not_supported :
    isValidServiceEncoding .Presence samplePresenceBytes = true
    ∧ create_request_message_from_service_payload 1 .Presence
        samplePresenceBytes = none
    ∧ create_response_message_from_service_payload 1 .Presence
        samplePresenceBytes = none := by
  exact ⟨rfl, rfl, rfl⟩

/-- C4 (amended): for every request id i > 0, every service s supported by
the constructors (Connection or Core), and every payload p that is a valid
encoding of s's service message, the request and response constructors
round-trip through the decoder:
`process(create_request(i, s, p)) = Request(i, s, p)` and
`process(create_response(i, s, p)) = Response(i, s, p)`. -/
theorem C4_request_response_roundtrip (i : Nat) (service : RealtimeService)
    (payload : ProtoBytes) (hi : 0 < i)
    (hsvc : service = .Connection ∨ service = .Core)
    (hp : isValidServiceEncoding service payload = true) :
    (create_request_message_from_service_payload i service payload).map
        process_realtime_message
      = some (.Request { request_id := i, service := service,
                         bytes := payload })
    ∧ (create_response_message_from_service_payload i service payload).map
        process_realtime_message
      = some (.Response { response_id := i, service := service,
                          bytes := payload }) := by
  have hne : i ≠ 0 := by omega
  rcases hsvc with h | h <;> subst h <;> cases payload <;>
    simp_all [isValidServiceEncoding,
      create_request_message_from_service_payload,
      create_response_message_from_service_payload,
      create_rt_message_from_service_payload, ConnectionMessage.decode,
      CoreMessage.decode, RealtimeMessage.encode_to_vec,
      process_realtime_message, RealtimeMessage.decode,
      process_header_and_message, extract_service_payload_from_rt_message,
      ConnectionMessage.encode_to_vec]

/-- C4 witness: the round-trip theorem applied at request id 1, the
Connection service and a concrete valid payload. -/
theorem C4_request_response_roundtrip_witness :
    (create_request_message_from_service_payload 1 .Connection
        sampleConnectionBytes).map process_realtime_message
      = some (.Request { request_id := 1, service := .Connection,
                         bytes := sampleConnectionBytes })
    ∧ (create_response_message_from_service_payload 1 .Connection
        sampleConnectionBytes).map process_realtime_message
      = some (.Response { response_id := 1, service := .Connection,
                          bytes := sampleConnectionBytes }) :=
  C4_request_response_roundtrip 1 .Connection sampleConnectionBytes
    (by decide) (Or.inl rfl) rfl

/-! ## Claim C5 -/

/-- C5: for every byte string that decodes to a `RealtimeMessage`, the
codec classifies it exactly by the header ids: header or body absent, or
both ids non-zero, yields `Undefined`; otherwise `Request(request_id)`
when `request_id ≠ 0`, `Response(response_id)` when `response_id ≠ 0`, and
`Tell` when both are zero. -/
theorem C5_process_classifies_by_header_ids (bytes : ProtoBytes)
    (m : RealtimeMessage) (h : RealtimeMessage.decode bytes = .ok m) :
    (process_realtime_message bytes).classification
      = classify_by_header_spec m := by
  rcases m with ⟨header, body⟩
  cases bytes <;> simp [RealtimeMessage.decode] at h
  subst h
  cases header with
  | none =>
    cases body <;>
      simp [process_realtime_message, RealtimeMessage.decode,
        process_header_and_message, classify_by_header_spec,
        ProtoMessage.classification]
  | some hd =>
    cases body with
    | none =>
      simp [process_realtime_message, RealtimeMessage.decode,
        process_header_and_message, classify_by_header_spec,
        ProtoMessage.classification]
    | some b =>
      by_cases hreq : hd.request_id = 0 <;>
        by_cases hres : hd.response_id = 0 <;>
        cases b <;>
        simp [process_realtime_message, RealtimeMessage.decode,
          process_header_and_message, classify_by_header_spec,
          ProtoMessage.classification,
          extract_service_payload_from_rt_message, hreq, hres]

/-- C5 witness: the classification theorem applied to a concrete frame
whose header carries both ids non-zero; both sides are `undefined`. -/
theorem C5_process_classifies_witness :
    (process_realtime_message (ProtoBytes.rtEnc
        { header := some { request_id := 2, response_id := 3 },
          body := some (.CoreMsg { content := 0 }) })).classification
      = classify_by_header_spec
          { header := some { request_id := 2, response_id := 3 },
            body := some (.CoreMsg { content := 0 }) } :=
  C5_process_classifies_by_header_ids _ _ rfl

/-! ## Claim C1 -/

theorem status_after_sched_then_failed (r : HostedCospaces)
    (cospace_id : CospaceId) (hh : r.is_hosted cospace_id.uuid = false) :
    realtime_status ((r.mark_scheduled cospace_id).mark_failed cospace_id)
        cospace_id.uuid = "FAILED" := by
  simp [HostedCospaces.mark_scheduled, HostedCospaces.mark_failed,
    UuidMap.insert_self, realtime_status, HostedCospaces.is_hosted,
    HostedCospaces.is_scheduled, HostedCospaces.is_failed, UuidMap.insert,
    UuidMap.erase] at *
  simp [hh]

theorem status_after_sched_then_insert (r : HostedCospaces)
    (cospace_id : CospaceId) (cospace : HostedCospace) :
    realtime_status
        ((r.mark_scheduled cospace_id).insert_cospace cospace_id cospace)
        cospace_id.uuid = "HOSTED" := by
  simp [HostedCospaces.mark_scheduled, HostedCospaces.insert_cospace,
    realtime_status, HostedCospaces.is_hosted, UuidMap.insert]

theorem status_after_sched_only (r : HostedCospaces) (cospace_id : CospaceId)
    (hh : r.is_hosted cospace_id.uuid = false) :
    realtime_status (r.mark_scheduled cospace_id) cospace_id.uuid
      = "SCHEDULED" := by
  simp [HostedCospaces.mark_scheduled, realtime_status,
    HostedCospaces.is_hosted, HostedCospaces.is_scheduled, UuidMap.insert]
    at *
  simp [hh]

/-- C1 counterexample: dedicated placement in which the worker spawns, the
remote address resolves, and the `CreateCospaceActor` ask returns `None`:
the source only logs, so the cospace stays in the scheduled map, it is not
moved to the failed map, and a subsequent status query returns
`SCHEDULED`, not `FAILED`. -/
theorem C1_counterexample_ask_none_leaves_scheduled :
    realtime_status
        (spawn_cospace_in_dedicated_node
          { spawn_worker_node := some 1, get_remote_addr := some 1,
            create_actor_ask := .ok none }
          { uuid := 0 } HostedCospaces.new) 0
      = "SCHEDULED"
    ∧ (spawn_cospace_in_dedicated_node
          { spawn_worker_node := some 1, get_remote_addr := some 1,
            create_actor_ask := .ok none }
          { uuid := 0 } HostedCospaces.new).is_failed 0 = false
    ∧ (spawn_cospace_in_dedicated_node
          { spawn_worker_node := some 1, get_remote_addr := some 1,
            create_actor_ask := .ok none }
          { uuid := 0 } HostedCospaces.new).is_scheduled 0 = true := by
  exact ⟨rfl, rfl, rfl⟩

/-- C1 (amended): for a freshly generated cospace id, the placement
operations move the cospace to failed (status `FAILED`) exactly on a
worker-spawn failure or a remote-address-lookup failure; when the
`CreateCospaceActor` ask returns `Ok(Some(addr))` the cospace is hosted
(status `HOSTED`); and when the ask returns `None` or an error the source
only logs, leaving the cospace in the scheduled map (status
`SCHEDULED`). -/
theorem C1_placement_failure_status (env : DedicatedNodeEnv)
    (ask : CreateCospaceAskResult) (cospace_id : CospaceId)
    (r : HostedCospaces)
    (hh : r.is_hosted cospace_id.uuid = false) :
    realtime_status (spawn_cospace_in_dedicated_node env cospace_id r)
        cospace_id.uuid
      = (match env.spawn_worker_node, env.get_remote_addr,
           env.create_actor_ask with
         | none, _, _ => "FAILED"
         | some _, none, _ => "FAILED"
         | some _, some _, .ok (some _) => "HOSTED"
         | some _, some _, .ok none => "SCHEDULED"
         | some _, some _, .err _ => "SCHEDULED")
    ∧ realtime_status (spawn_cospace_in_main_node ask cospace_id r)
        cospace_id.uuid
      = (match ask with
         | .ok (some _) => "HOSTED"
         | .ok none => "SCHEDULED"
         | .err _ => "SCHEDULED")
    ∧ realtime_status (spawn_cospace_in_shared_node ask cospace_id r)
        cospace_id.uuid
      = (match ask with
         | .ok (some _) => "HOSTED"
         | .ok none => "SCHEDULED"
         | .err _ => "SCHEDULED") := by
  rcases env with ⟨spawn_outcome, addr_outcome, ask_outcome⟩
  refine ⟨?_, ?_, ?_⟩
  · cases spawn_outcome with
    | none =>
      simpa [spawn_cospace_in_dedicated_node] using
        status_after_sched_then_failed r cospace_id hh
    | some node_id =>
      cases addr_outcome with
      | none =>
        simpa [spawn_cospace_in_dedicated_node] using
          status_after_sched_then_failed r cospace_id hh
      | some mgr_addr =>
        cases ask_outcome with
        | ok addr =>
          cases addr with
          | none =>
            simpa [spawn_cospace_in_dedicated_node, spawn_cospace_in_node]
              using status_after_sched_only r cospace_id hh
          | some a =>
            simpa [spawn_cospace_in_dedicated_node, spawn_cospace_in_node]
              using status_after_sched_then_insert r cospace_id
                { resource_alloc := .Dedicated, addr_actor := a }
        | err e =>
          simpa [spawn_cospace_in_dedicated_node, spawn_cospace_in_node]
            using status_after_sched_only r cospace_id hh
  · cases ask with
    | ok addr =>
      cases addr with
      | none =>
        simpa [spawn_cospace_in_main_node, spawn_cospace_in_node] using
          status_after_sched_only r cospace_id hh
      | some a =>
        simpa [spawn_cospace_in_main_node, spawn_cospace_in_node] using
          status_after_sched_then_insert r cospace_id
            { resource_alloc := .Shared, addr_actor := a }
    | err e =>
      simpa [spawn_cospace_in_main_node, spawn_cospace_in_node] using
        status_after_sched_only r cospace_id hh
  · cases ask with
    | ok addr =>
      cases addr with
      | none =>
        simpa [spawn_cospace_in_shared_node, spawn_cospace_in_node] using
          status_after_sched_only r cospace_id hh
      | some a =>
        simpa [spawn_cospace_in_shared_node, spawn_cospace_in_node] using
          status_after_sched_then_insert r cospace_id
            { resource_alloc := .Shared, addr_actor := a }
    | err e =>
      simpa [spawn_cospace_in_shared_node, spawn_cospace_in_node] using
        status_after_sched_only r cospace_id hh

/-- C1 witness: the amended characterization applied to a concrete
environment whose worker spawn fails (dedicated placement reports
`FAILED`) and a concrete successful ask (main and shared placements report
`HOSTED`). -/
theorem C1_placement_failure_status_witness :
    realtime_status
        (spawn_cospace_in_dedicated_node
          { spawn_worker_node := none, get_remote_addr := some 1,
            create_actor_ask := .ok (some 5) }
          { uuid := 3 } HostedCospaces.new) 3
      = "FAILED"
    ∧ realtime_status
        (spawn_cospace_in_main_node (.ok (some 5)) { uuid := 3 }
          HostedCospaces.new) 3
      = "HOSTED"
    ∧ realtime_status
        (spawn_cospace_in_shared_node (.ok (some 5)) { uuid := 3 }
          HostedCospaces.new) 3
      = "HOSTED" :=
  C1_placement_failure_status
    { spawn_worker_node := none, get_remote_addr := some 1,
      create_actor_ask := .ok (some 5) }
    (.ok (some 5)) { uuid := 3 } HostedCospaces.new rfl

/-! ## Claim C6 -/

theorem registry_op_step_preserves_disjoint (r : HostedCospaces)
    (op : RegistryOp) (hr : ∀ y, registryMembershipCount r y ≤ 1)
    (hop : registryOpAllowed r op = true) (x : Nat) :
    registryMembershipCount (applyRegistryOp r op) x ≤ 1 := by
  cases op with
  | sched cospace_id =>
    simp only [registryOpAllowed, Bool.not_eq_true', Bool.or_eq_false_iff,
      HostedCospaces.is_scheduled, HostedCospaces.is_failed,
      HostedCospaces.is_hosted] at hop
    by_cases hx : x = cospace_id.uuid
    · subst hx
      simp [applyRegistryOp, HostedCospaces.mark_scheduled,
        registryMembershipCount, HostedCospaces.is_scheduled,
        HostedCospaces.is_failed, HostedCospaces.is_hosted,
        UuidMap.insert_self, hop.1.2, hop.2]
    · have h1 := hr x
      simp only [applyRegistryOp, HostedCospaces.mark_scheduled,
        registryMembershipCount, HostedCospaces.is_scheduled,
        HostedCospaces.is_failed, HostedCospaces.is_hosted,
        UuidMap.insert_ne _ _ _ _ hx] at *
      exact h1
  | fail cospace_id =>
    rcases hsch : r.scheduled cospace_id.uuid with _ | req
    · simpa [applyRegistryOp, HostedCospaces.mark_failed, hsch] using hr x
    · have hcount := hr cospace_id.uuid
      rcases hfl : r.failed cospace_id.uuid with _ | fv <;>
        rcases hcs : r.cospaces cospace_id.uuid with _ | cv <;>
        simp only [registryMembershipCount, HostedCospaces.is_scheduled,
          HostedCospaces.is_failed, HostedCospaces.is_hosted, hsch, hfl,
          hcs, Option.isSome_some, Option.isSome_none, if_true, if_false,
          Bool.false_eq_true] at hcount <;> try omega
      by_cases hx : x = cospace_id.uuid
      · subst hx
        simp [applyRegistryOp, HostedCospaces.mark_failed, hsch,
          registryMembershipCount, HostedCospaces.is_scheduled,
          HostedCospaces.is_failed, HostedCospaces.is_hosted,
          UuidMap.insert_self, UuidMap.erase_self, hcs]
      · have h1 := hr x
        simp only [applyRegistryOp, HostedCospaces.mark_failed, hsch,
          registryMembershipCount, HostedCospaces.is_scheduled,
          HostedCospaces.is_failed, HostedCospaces.is_hosted,
          UuidMap.insert_ne _ _ _ _ hx, UuidMap.erase_ne _ _ _ hx] at *
        exact h1
  | insert cospace_id cospace =>
    simp only [registryOpAllowed, Bool.not_eq_true',
      HostedCospaces.is_failed] at hop
    by_cases hx : x = cospace_id.uuid
    · subst hx
      simp [applyRegistryOp, HostedCospaces.insert_cospace,
        registryMembershipCount, HostedCospaces.is_scheduled,
        HostedCospaces.is_failed, HostedCospaces.is_hosted,
        UuidMap.insert_self, UuidMap.erase_self, hop]
    · have h1 := hr x
      simp only [applyRegistryOp, HostedCospaces.insert_cospace,
        registryMembershipCount, HostedCospaces.is_scheduled,
        HostedCospaces.is_failed, HostedCospaces.is_hosted,
        UuidMap.insert_ne _ _ _ _ hx, UuidMap.erase_ne _ _ _ hx] at *
      exact h1
  | remove cospace_id =>
    have h1 := hr x
    by_cases hx : x = cospace_id.uuid
    · subst hx
      simp only [applyRegistryOp, HostedCospaces.remove_cospace,
        registryMembershipCount, HostedCospaces.is_scheduled,
        HostedCospaces.is_failed, HostedCospaces.is_hosted,
        UuidMap.erase_self, Option.isSome_none, Bool.false_eq_true,
        if_false] at *
      omega
    · simp only [applyRegistryOp, HostedCospaces.remove_cospace,
        registryMembershipCount, HostedCospaces.is_scheduled,
        HostedCospaces.is_failed, HostedCospaces.is_hosted,
        UuidMap.erase_ne _ _ _ hx] at *
      exact h1

theorem registry_ops_preserve_disjoint (ops : List RegistryOp) :
    ∀ r : HostedCospaces, (∀ y, registryMembershipCount r y ≤ 1) →
      registryOpsAllowed r ops = true →
      ∀ x, registryMembershipCount (applyRegistryOps r ops) x ≤ 1 := by
  induction ops with
  | nil => intro r hr _ x; exact hr x
  | cons op ops ih =>
    intro r hr hwf x
    simp only [registryOpsAllowed, Bool.and_eq_true] at hwf
    exact ih (applyRegistryOp r op)
      (registry_op_step_preserves_disjoint r op hr hwf.1) hwf.2 x

/-- C6 counterexample: over arbitrary sequences of completed registry
operations the claim fails — scheduling a uuid, hosting it, and scheduling
the same uuid again (the `scheduled` method inserts unconditionally)
leaves the uuid a key of both the scheduled map and the hosted map. -/
theorem C6_counterexample_reschedule_breaks_disjointness :
    registryMembershipCount
        (applyRegistryOps HostedCospaces.new
          [.sched { uuid := 0 }, .insert { uuid := 0 } c6SampleHosted,
           .sched { uuid := 0 }]) 0
      = 2
    ∧ (applyRegistryOps HostedCospaces.new
          [.sched { uuid := 0 }, .insert { uuid := 0 } c6SampleHosted,
           .sched { uuid := 0 }]).is_scheduled 0 = true
    ∧ (applyRegistryOps HostedCospaces.new
          [.sched { uuid := 0 }, .insert { uuid := 0 } c6SampleHosted,
           .sched { uuid := 0 }]).is_hosted 0 = true := by
  exact ⟨rfl, rfl, rfl⟩

/-- C6 (amended): starting from the empty registry, after any sequence of
completed registry operations that observes the manager's call discipline
— every `scheduled` targets a uuid that is a key of no map (uuids are
freshly generated v4) and every `insert_cospace` targets a uuid that is
not in the failed map (each spawn task performs at most one of
failed/insert for its uuid) — every cospace uuid is a key of at most one
of the three maps scheduled, failed and hosted. -/
theorem C6_registry_disjointness (ops : List RegistryOp)
    (hwf : registryOpsAllowed HostedCospaces.new ops = true) (x : Nat) :
    registryMembershipCount (applyRegistryOps HostedCospaces.new ops) x
      ≤ 1 := by
  refine registry_ops_preserve_disjoint ops HostedCospaces.new ?_ hwf x
  intro y
  simp [registryMembershipCount, HostedCospaces.new,
    HostedCospaces.is_scheduled, HostedCospaces.is_failed,
    HostedCospaces.is_hosted]

/-- C6 witness: the disjointness theorem applied to a concrete well-formed
operation sequence (schedule, host, terminate, schedule another id, fail
it) at uuid 1. -/
theorem C6_registry_disjointness_witness :
    registryOpsAllowed HostedCospaces.new
        [.sched { uuid := 0 }, .insert { uuid := 0 } c6SampleHosted,
         .remove { uuid := 0 }, .sched { uuid := 1 }, .fail { uuid := 1 }]
      = true
    ∧ registryMembershipCount
        (applyRegistryOps HostedCospaces.new
          [.sched { uuid := 0 }, .insert { uuid := 0 } c6SampleHosted,
           .remove { uuid := 0 }, .sched { uuid := 1 },
           .fail { uuid := 1 }]) 1
      ≤ 1 :=
  ⟨by decide,
    C6_registry_disjointness
      [.sched { uuid := 0 }, .insert { uuid := 0 } c6SampleHosted,
       .remove { uuid := 0 }, .sched { uuid := 1 }, .fail { uuid := 1 }]
      (by decide) 1⟩

/-! ## Claim C7 -/

theorem cospaceActorStateAfter_preserves_cospace (s : CospaceActorState)
    (k : Nat) : (cospaceActorStateAfter s k).cospace = s.cospace := by
  induction k with
  | zero => rfl
  | succ k ih => simp [cospaceActorStateAfter, handle_generate_client_id, ih]

theorem cospaceActorStateAfter_counter (cospace : CospaceId)
    (model_root : ModelRoot) (k : Nat) (hk : k + 1 < 2 ^ 32) :
    (cospaceActorStateAfter (CospaceActor.new cospace model_root)
        k).client_id_counter = k + 1 := by
  induction k with
  | zero => rfl
  | succ k ih =>
    have hk' : k + 1 < 2 ^ 32 := by omega
    simp only [cospaceActorStateAfter, handle_generate_client_id, ih hk']
    exact Nat.mod_eq_of_lt (by omega)

/-- C7: on a single `CospaceActor`, the i-th `GenerateClientId` request
(counting from 1, with i in `u32` range) returns a `ClientId` whose
numeric id equals i — the sequence 1, 2, 3, … — and whose cospace field
equals that actor's `CospaceId`. -/
theorem C7_generate_client_id_sequence (cospace : CospaceId)
    (model_root : ModelRoot) (i : Nat) (h1 : 1 ≤ i) (h2 : i < 2 ^ 32) :
    nth_generated_client_id (CospaceActor.new cospace model_root) i
      = { id := i, cospace := cospace } := by
  have hk : (i - 1) + 1 < 2 ^ 32 := by omega
  have hcnt := cospaceActorStateAfter_counter cospace model_root (i - 1) hk
  have hco := cospaceActorStateAfter_preserves_cospace
    (CospaceActor.new cospace model_root) (i - 1)
  simp only [nth_generated_client_id, handle_generate_client_id,
    ClientId.mk.injEq]
  exact ⟨by rw [hcnt]; omega, hco⟩

/-- C7 witness: the third `GenerateClientId` request on a fresh actor for
cospace 7 returns client id 3 tagged with cospace 7. -/
theorem C7_generate_client_id_sequence_witness :
    nth_generated_client_id
        (CospaceActor.new { uuid := 7 }
          { name_space := "universe", workspace := "world" }) 3
      = { id := 3, cospace := { uuid := 7 } } :=
  C7_generate_client_id_sequence { uuid := 7 }
    { name_space := "universe", workspace := "world" } 3 (by decide)
    (by decide)

/-! ## Claim C8 -/

/-- C8: for every `HandshakeReq` client message delivered to the
`ClientConnectionServiceActor` (a binary payload whose bytes decode to a
connection message carrying `HandshakeReq`), the handler returns `Some`
encoded `HandshakeRes` whose success field is exactly the outcome of the
JWT validation of the ticket with sub=sdk, aud=message, ES256 against the
preloaded session-request public key; in particular a ticket the
validation rejects yields `HandshakeRes { success: false }` rather than no
response.  The theorem holds for every validation outcome function
`jwt_decode`, which abstracts the external `jsonwebtoken` crate. -/
theorem C8_handshake_response_success_iff_ticket_valid
    (jwt_decode : JwtDecodeOutcome) (bytes : ProtoBytes)
    (req : TicketHandshakeRequest)
    (h : decode_connection_message_and_extract_payload bytes
          = some (.HandshakeReq req)) :
    conn_service_handle_client_message jwt_decode (.Binary bytes)
      = some (create_ticket_handshake_response
          (jwt_decode TicketClaimsMessage.validation req.ticket)) := by
  simp [conn_service_handle_client_message, h, handle_handshake_request]

/-- C8 witness: the handshake theorem applied to a validator that rejects
every ticket (an expired message ticket): the handler still responds, with
`HandshakeRes { success := false }`. -/
theorem C8_handshake_response_witness :
    conn_service_handle_client_message (fun _ _ => false)
        (.Binary (ProtoBytes.connEnc
          { payload := some (.HandshakeReq { ticket := "expired" }) }))
      = some (create_ticket_handshake_response false) :=
  C8_handshake_response_success_iff_ticket_valid (fun _ _ => false)
    (ProtoBytes.connEnc
      { payload := some (.HandshakeReq { ticket := "expired" }) })
    { ticket := "expired" } rfl

/-! ## Claim C9 -/

/-- C9: `realtime_host` constructs the `ModelRoot` with its namespace
field taken from the request's `model_workspace` field and its workspace
field taken from the request's `model_namespace` field — swapped relative
to the field names.  The construction is a pure function of the request
body, so two requests with the same body produce the same `ModelRoot`
key. -/
theorem C9_model_root_fields_swapped (session_req : HostSessionRequest) :
    (realtime_host_model_root session_req).name_space
        = session_req.model_workspace
    ∧ (realtime_host_model_root session_req).workspace
        = session_req.model_namespace := by
  exact ⟨rfl, rfl⟩

/-! ## Claim C10 -/

/-- C10: for every `GET /realtime/connect/:cospace` request whose query
ticket validates (sub=sdk, aud=query, ES256), if the cospace uuid is not
in the hosted map the handler returns the `WrongCredentials` error, whose
response is 401 "Wrong credentials", and no WebSocket upgrade is
initiated; and the upgrade is offered exactly when the ticket validates
and the cospace is hosted. -/
theorem C10_connect_unhosted_is_unauthorized (jwt_decode : JwtDecodeOutcome)
    (uuid : Nat) (params : Option (List (String × String)))
    (r : HostedCospaces) :
    (check_connect_authorization jwt_decode params = true →
      r.is_hosted uuid = false →
      realtime_connect jwt_decode uuid params r
          = .authError .WrongCredentials
        ∧ AuthError.into_response .WrongCredentials
          = (401, "Wrong credentials"))
    ∧ ((∃ a, realtime_connect jwt_decode uuid params r = .upgrade a)
        ↔ check_connect_authorization jwt_decode params = true
          ∧ r.is_hosted uuid = true) := by
  by_cases hc : check_connect_authorization jwt_decode params = true
  · rcases hcs : r.cospaces uuid with _ | cospace
    · constructor
      · intro _ _
        exact ⟨by simp [realtime_connect, hc,
          HostedCospaces.get_cospace_addr, hcs], rfl⟩
      · simp [realtime_connect, hc, HostedCospaces.get_cospace_addr, hcs,
          HostedCospaces.is_hosted]
    · constructor
      · intro _ hh
        simp [HostedCospaces.is_hosted, hcs] at hh
      · simp [realtime_connect, hc, HostedCospaces.get_cospace_addr, hcs,
          HostedCospaces.is_hosted]
  · constructor
    · intro hc'
      exact absurd hc' hc
    · simp only [Bool.not_eq_true] at hc
      simp [realtime_connect, hc]

/-- C10 witness: the connect theorem applied to a validator that accepts
the concrete query ticket and the empty registry (the cospace is not
hosted): the handler answers 401 "Wrong credentials". -/
theorem C10_connect_unhosted_witness :
    realtime_connect (fun _ _ => true) 0 (some [("ticket", "tk")])
        HostedCospaces.new
      = .authError .WrongCredentials
    ∧ AuthError.into_response .WrongCredentials
      = (401, "Wrong credentials") :=
  (C10_connect_unhosted_is_unauthorized (fun _ _ => true) 0
    (some [("ticket", "tk")]) HostedCospaces.new).1 rfl rfl
